import Mathlib

/-!
Shallow embedding of the synchronization and caching core of the
movie-recommendation backend (`src/movies/services.py`, `src/movies/models.py`,
`src/movies/views.py`).

The local relational store is modelled as explicit lists of rows; the Django
ORM operations used by the service (`update_or_create`, `get_or_create`,
`filter`, `get`, `order_by`, slicing) are modelled as list functions.  The
response cache is an association list from string keys to raw payloads.  The
remote TMDb API is an oracle (`Remote`) giving, for each endpoint and
parameters, the payload the transport layer would deliver (`none` models any
transport-level failure, which `_make_request` maps to `None`).  Every service
operation additionally returns the list of observable effects it performed
(cache reads, cache writes, API calls), in order.

Float-valued JSON fields (`vote_average`, `popularity`) are modelled as
rationals: the service only stores and compares them, performing no float
arithmetic.
-/

namespace MovieBackend

/-- Calendar date, the result of parsing a provider release-date string with
`strptime('%Y-%m-%d')`. -/
structure Date where
  year : Nat
  month : Nat
  day : Nat
deriving DecidableEq, Repr

/-- Gregorian leap-year test, as used by `datetime` for date validation. -/
def isLeapYear (y : Nat) : Bool :=
  (y % 4 == 0 && y % 100 != 0) || y % 400 == 0

/-- Number of days in month `m` of year `y` (months numbered 1..12). -/
def daysInMonth (y m : Nat) : Nat :=
  if m = 2 then (if isLeapYear y then 29 else 28)
  else if m = 4 ∨ m = 6 ∨ m = 9 ∨ m = 11 then 30
  else 31

/-- Splits a character list on a separator character (keeping empty groups),
the list-level counterpart of Python's `str.split`. -/
def splitOnChar (sep : Char) (cs : List Char) : List (List Char) :=
  match cs with
  | [] => [[]]
  | c :: rest =>
    let r := splitOnChar sep rest
    if c == sep then [] :: r
    else
      match r with
      | h :: t => (c :: h) :: t
      | [] => [[c]]

/-- Numeric value of a digit string. -/
def natOfDigits (cs : List Char) : Nat :=
  cs.foldl (fun n c => 10 * n + (c.toNat - 48)) 0

/-- Model of Python's `str.strip()`: drop whitespace from both ends. -/
def pyStrip (s : String) : String :=
  ⟨((s.data.dropWhile Char.isWhitespace).reverse.dropWhile Char.isWhitespace).reverse⟩

/-- Model of Python's `str.lower()` over the characters of a string. -/
def pyLower (s : String) : String :=
  ⟨s.data.map Char.toLower⟩

/-- Defensive parse of a `YYYY-MM-DD` string, modelling
`timezone.datetime.strptime(s, '%Y-%m-%d').date()`: three dash-separated
digit groups (year up to 4 digits, month and day up to 2), validated as a
real calendar date; anything else yields `none` (the `ValueError` branch). -/
def parseDate (s : String) : Option Date :=
  match splitOnChar '-' s.data with
  | [ys, ms, ds] =>
    if ys.length = 0 ∨ 4 < ys.length ∨ ¬ ys.all Char.isDigit then none
    else if ms.length = 0 ∨ 2 < ms.length ∨ ¬ ms.all Char.isDigit then none
    else if ds.length = 0 ∨ 2 < ds.length ∨ ¬ ds.all Char.isDigit then none
    else
      let y := natOfDigits ys
      let m := natOfDigits ms
      let d := natOfDigits ds
      if 1 ≤ y ∧ 1 ≤ m ∧ m ≤ 12 ∧ 1 ≤ d ∧ d ≤ daysInMonth y m then
        some ⟨y, m, d⟩
      else none
  | _ => none

/-- Row of the `Genre` table (`movies/models.py`): provider id (unique) and
display name. -/
structure Genre where
  tmdb_id : Int
  name : String
deriving DecidableEq, Repr

/-- Row of the `Movie` table (`movies/models.py`): provider id (unique) plus
the mutable fields written by the merge engine. -/
structure Movie where
  tmdb_id : Int
  title : String
  overview : String
  release_date : Option Date
  vote_average : Rat
  popularity : Rat
  poster_path : String
  backdrop_path : String
deriving DecidableEq, Repr

/-- The local relational store: `Movie` rows, `Genre` rows, and the
`MovieGenre` bridge table as (movie provider id, genre provider id) pairs,
unique per pair. -/
structure Store where
  movies : List Movie
  genres : List Genre
  links : List (Int × Int)
deriving DecidableEq, Repr

/-- An `{id, name}` object inside a detailed payload's `genres` list or the
genre-catalog payload. -/
structure GenrePair where
  id : Int
  name : String
deriving DecidableEq, Repr

/-- A raw provider movie record (one JSON object).  `none` in a field models
absence of the key; `_create_or_update_movie` reads `id` with `['id']`
(raising `KeyError` when absent) and every other field with `.get`. -/
structure RawRecord where
  id : Option Int
  title : Option String
  overview : Option String
  release_date : Option String
  vote_average : Option Rat
  popularity : Option Rat
  poster_path : Option String
  backdrop_path : Option String
  genres : Option (List GenrePair)
  genre_ids : Option (List Int)
deriving DecidableEq, Repr

/-- The genre-catalog payload (`{'genres': [...]}`). -/
structure GenresPayload where
  genres : Option (List GenrePair)
deriving DecidableEq, Repr

/-- Python truthiness of the genre-catalog dict over its modelled key. -/
def GenresPayload.isTruthy (p : GenresPayload) : Bool :=
  p.genres.isSome

/-- A paged list payload (`{'results': [...], 'total_pages': n}`). -/
structure ListPayload where
  results : Option (List RawRecord)
  total_pages : Option Int
deriving DecidableEq, Repr

/-- Python truthiness of a list payload dict over its modelled keys. -/
def ListPayload.isTruthy (p : ListPayload) : Bool :=
  p.results.isSome || p.total_pages.isSome

/-- A value stored in the response cache. -/
inductive CachePayload
  | genresP (p : GenresPayload)
  | listP (p : ListPayload)
deriving DecidableEq, Repr

/-- The response cache: key, payload and the TTL passed to `cache.set`. -/
abbrev Cache := List (String × CachePayload × Int)

/-- Model of `cache.get(key)`. -/
def cacheGet (c : Cache) (k : String) : Option CachePayload :=
  (c.find? (fun e => e.1 == k)).map (fun e => e.2.1)

/-- Model of `cache.set(key, payload, ttl)`: replaces any entry for the key. -/
def cacheSet (c : Cache) (k : String) (p : CachePayload) (ttl : Int) : Cache :=
  c.filter (fun e => e.1 != k) ++ [(k, p, ttl)]

/-- Modelled from the spec: `settings.CACHE_TIMEOUT['GENRES']` (the settings
module is not part of the sources; the spec only says the genre catalog is
long-lived).  No claim depends on the value. -/
def CACHE_TIMEOUT_GENRES : Int := 86400

/-- Modelled from the spec: `settings.CACHE_TIMEOUT['TRENDING_MOVIES']`
(medium-lived; no claim depends on the value). -/
def CACHE_TIMEOUT_TRENDING : Int := 3600

/-- Modelled from the spec: `settings.CACHE_TIMEOUT['POPULAR_MOVIES']`
(medium-lived; no claim depends on the value). -/
def CACHE_TIMEOUT_POPULAR : Int := 3600

/-- An HTTP request the service can issue through `_make_request`. -/
inductive ApiRequest
  | genreList
  | trending (time_window : String) (page : Int)
  | popular (page : Int)
  | searchReq (query : String) (page : Int)
deriving DecidableEq, Repr

/-- An observable side effect of a service operation, in program order. -/
inductive Effect
  | apiCall (req : ApiRequest)
  | cacheRead (key : String)
  | cacheWrite (key : String)
deriving DecidableEq, Repr

/-- The remote provider as seen through `_make_request`: for each endpoint and
parameters, the decoded JSON payload, or `none` on any transport-level
failure (timeout, connection error, non-2xx status — `_make_request` catches
`RequestException` and returns `None`). -/
structure Remote where
  genreList : Option GenresPayload
  trending : String → Int → Option ListPayload
  popular : Int → Option ListPayload
  search : String → Int → Option ListPayload

/-- The mutable state a service call threads: the relational store and the
response cache. -/
structure SvcState where
  store : Store
  cache : Cache
deriving DecidableEq, Repr

/-- Model of `Genre.objects.get_or_create(tmdb_id=tid, defaults={'name': name})`:
when a row with the provider id exists it is returned unchanged (the
defaults, including the name, are ignored); otherwise a new row is
appended. -/
def getOrCreateGenre (genres : List Genre) (tid : Int) (name : String) : List Genre :=
  if genres.any (fun g => g.tmdb_id == tid) then genres
  else genres ++ [⟨tid, name⟩]

/-- The `for genre_data in genres_data['genres']` loop of `fetch_genres`. -/
def upsertGenres (genres : List Genre) (gl : List GenrePair) : List Genre :=
  match gl with
  | [] => genres
  | gp :: rest => upsertGenres (getOrCreateGenre genres gp.id gp.name) rest

/-- The cache key used by `fetch_genres`. -/
def GENRES_CACHE_KEY : String := "tmdb_genres"

/-- The cache-then-fetch phase of `fetch_genres`: read the cache; on a miss
(or falsy cached value) issue the remote call and cache a truthy
response. -/
def genresFetchData (remote : Remote) (c : Cache) :
    Option GenresPayload × Cache × List Effect :=
  let cached :=
    match cacheGet c GENRES_CACHE_KEY with
    | some (CachePayload.genresP p) => if p.isTruthy then some p else none
    | _ => none
  match cached with
  | some p => (some p, c, [Effect.cacheRead GENRES_CACHE_KEY])
  | none =>
    match remote.genreList with
    | some p =>
      if p.isTruthy then
        (some p,
          cacheSet c GENRES_CACHE_KEY (CachePayload.genresP p) CACHE_TIMEOUT_GENRES,
          [Effect.cacheRead GENRES_CACHE_KEY, Effect.apiCall ApiRequest.genreList,
            Effect.cacheWrite GENRES_CACHE_KEY])
      else
        (some p, c,
          [Effect.cacheRead GENRES_CACHE_KEY, Effect.apiCall ApiRequest.genreList])
    | none =>
      (none, c,
        [Effect.cacheRead GENRES_CACHE_KEY, Effect.apiCall ApiRequest.genreList])

/-- Model of `TMDbService.fetch_genres`: read the genre catalog from the cache,
on a miss (or falsy cached value) fetch it remotely and cache a truthy
response, then `get_or_create` each listed genre; returns the genre table. -/
def fetch_genres (remote : Remote) (st : SvcState) :
    List Genre × SvcState × List Effect :=
  let fd := genresFetchData remote st.cache
  let genres' :=
    match fd.1 with
    | some p =>
      match p.genres with
      | some gl => upsertGenres st.store.genres gl
      | none => st.store.genres
    | none => st.store.genres
  (genres', { store := { st.store with genres := genres' }, cache := fd.2.1 }, fd.2.2)

/-- The genre-id list extracted by `_create_or_update_movie`: a `genres` key
(detailed payload) yields the ids of its objects, else a `genre_ids` key
yields the bare list, else the empty list. -/
def genreIdList (r : RawRecord) : List Int :=
  match r.genres with
  | some gl => gl.map GenrePair.id
  | none =>
    match r.genre_ids with
    | some ids => ids
    | none => []

/-- The defensive release-date parse of `_create_or_update_movie`: a missing or
falsy (empty) value is skipped, an unparsable one is swallowed by the inner
`except ValueError`. -/
def parsedReleaseDate (r : RawRecord) : Option Date :=
  match r.release_date with
  | none => none
  | some s => if s == "" then none else parseDate s

/-- The `Movie` row written for record `r` under provider id `tid`: the
`defaults` dict of the `update_or_create` call. -/
def movieOfRecord (r : RawRecord) (tid : Int) : Movie :=
  { tmdb_id := tid
    title := r.title.getD ""
    overview := r.overview.getD ""
    release_date := parsedReleaseDate r
    vote_average := r.vote_average.getD 0
    popularity := r.popularity.getD 0
    poster_path := r.poster_path.getD ""
    backdrop_path := r.backdrop_path.getD "" }

/-- Model of `Movie.objects.update_or_create(tmdb_id=..., defaults=...)`: if a
row with the provider id exists, overwrite all its mutable fields; otherwise
append a new row. -/
def upsertMovie (movies : List Movie) (m : Movie) : List Movie :=
  if movies.any (fun x => x.tmdb_id == m.tmdb_id) then
    movies.map (fun x => if x.tmdb_id == m.tmdb_id then m else x)
  else movies ++ [m]

/-- The `for genre_id in genre_ids` loop: for each id in order, look up the
local genre (`Genre.objects.get`, skipping on `DoesNotExist`) and
`get_or_create` the bridge row. -/
def addGenreLinks (links : List (Int × Int)) (tid : Int) (gids : List Int)
    (genres : List Genre) : List (Int × Int) :=
  match gids with
  | [] => links
  | gid :: rest =>
    let links' :=
      if genres.any (fun g => g.tmdb_id == gid) then
        if links.contains (tid, gid) then links else links ++ [(tid, gid)]
      else links
    addGenreLinks links' tid rest genres

/-- Model of `TMDbService._create_or_update_movie`.  A record without an `id`
key raises `KeyError`, caught by the enclosing `except` before any store
mutation: the result is `none` and the state is unchanged.  Otherwise the
movie row is upserted; then, only when the extracted genre-id list is
non-empty, the genre catalog is ensured via `fetch_genres`, the movie's
existing bridge rows are deleted, and one bridge row per resolvable id is
recreated.  The `detailed` flag is accepted but (as in the source) never
read: the genre branch keys on the payload's keys. -/
def create_or_update_movie (remote : Remote) (r : RawRecord) (detailed : Bool)
    (st : SvcState) : Option Movie × SvcState × List Effect :=
  match r.id with
  | none => (none, st, [])
  | some tid =>
    let m := movieOfRecord r tid
    let st₁ : SvcState :=
      { store := { st.store with movies := upsertMovie st.store.movies m },
        cache := st.cache }
    let gids := genreIdList r
    if gids.isEmpty then (some m, st₁, [])
    else
      let fg := fetch_genres remote st₁
      let st₂ := fg.2.1
      let cleared := st₂.store.links.filter (fun l => l.1 != tid)
      let links' := addGenreLinks cleared tid gids st₂.store.genres
      (some m, { store := { st₂.store with links := links' }, cache := st₂.cache }, fg.2.2)

/-- The shared per-record loop of the list operations: merge each record,
collecting only the successes (a `None` from the merge is skipped). -/
def mergeRecords (remote : Remote) (records : List RawRecord) (st : SvcState) :
    List Movie × SvcState × List Effect :=
  match records with
  | [] => ([], st, [])
  | r :: rest =>
    let c := create_or_update_movie remote r false st
    let mr := mergeRecords remote rest c.2.1
    ((match c.1 with | some m => m :: mr.1 | none => mr.1), mr.2.1, c.2.2 ++ mr.2.2)

/-- The shared cache-then-fetch phase of the three list operations: read the
cache; on a miss (or falsy cached value) issue the remote call and cache a
truthy response under the given TTL. -/
def listFetchData (c : Cache) (key : String) (resp : Option ListPayload)
    (req : ApiRequest) (ttl : Int) : Option ListPayload × Cache × List Effect :=
  let cached :=
    match cacheGet c key with
    | some (CachePayload.listP p) => if p.isTruthy then some p else none
    | _ => none
  match cached with
  | some p => (some p, c, [Effect.cacheRead key])
  | none =>
    match resp with
    | some p =>
      if p.isTruthy then
        (some p, cacheSet c key (CachePayload.listP p) ttl,
          [Effect.cacheRead key, Effect.apiCall req, Effect.cacheWrite key])
      else (some p, c, [Effect.cacheRead key, Effect.apiCall req])
    | none => (none, c, [Effect.cacheRead key, Effect.apiCall req])

/-- Model of `TMDbService.fetch_trending_movies`: cached-or-fetched payload,
then merge each record of `results`, returning the successes and
`total_pages` (defaulting to 1); without a usable payload, `([], 0)`. -/
def fetch_trending_movies (remote : Remote) (time_window : String) (page : Int)
    (st : SvcState) : (List Movie × Int) × SvcState × List Effect :=
  let cache_key := "trending_movies_" ++ time_window ++ "_" ++ toString page
  let fd :=
    listFetchData st.cache cache_key (remote.trending time_window page)
      (ApiRequest.trending time_window page) CACHE_TIMEOUT_TRENDING
  let st₁ : SvcState := { store := st.store, cache := fd.2.1 }
  match fd.1 with
  | some p =>
    match p.results with
    | some rs =>
      let mr := mergeRecords remote rs st₁
      ((mr.1, p.total_pages.getD 1), mr.2.1, fd.2.2 ++ mr.2.2)
    | none => (([], 0), st₁, fd.2.2)
  | none => (([], 0), st₁, fd.2.2)

/-- Model of `TMDbService.fetch_popular_movies` (same shape as trending, keyed
by page only). -/
def fetch_popular_movies (remote : Remote) (page : Int) (st : SvcState) :
    (List Movie × Int) × SvcState × List Effect :=
  let cache_key := "popular_movies_" ++ toString page
  let fd :=
    listFetchData st.cache cache_key (remote.popular page)
      (ApiRequest.popular page) CACHE_TIMEOUT_POPULAR
  let st₁ : SvcState := { store := st.store, cache := fd.2.1 }
  match fd.1 with
  | some p =>
    match p.results with
    | some rs =>
      let mr := mergeRecords remote rs st₁
      ((mr.1, p.total_pages.getD 1), mr.2.1, fd.2.2 ++ mr.2.2)
    | none => (([], 0), st₁, fd.2.2)
  | none => (([], 0), st₁, fd.2.2)

/-- Model of `TMDbService.search_movies`: a query that strips to the empty
string short-circuits to `([], 0)` before any cache or remote access; the
search cache TTL is the hard-coded 1800. -/
def search_movies (remote : Remote) (query : String) (page : Int)
    (st : SvcState) : (List Movie × Int) × SvcState × List Effect :=
  if pyStrip query == "" then (([], 0), st, [])
  else
    let cache_key := "search_movies_" ++ query ++ "_" ++ toString page
    let fd :=
      listFetchData st.cache cache_key (remote.search query page)
        (ApiRequest.searchReq query page) 1800
    let st₁ : SvcState := { store := st.store, cache := fd.2.1 }
    match fd.1 with
    | some p =>
      match p.results with
      | some rs =>
        let mr := mergeRecords remote rs st₁
        ((mr.1, p.total_pages.getD 1), mr.2.1, fd.2.2 ++ mr.2.2)
      | none => (([], 0), st₁, fd.2.2)
    | none => (([], 0), st₁, fd.2.2)

/-- Case-insensitive exact string match, modelling the `name__iexact` lookup. -/
def iexactMatch (a b : String) : Bool :=
  pyLower a == pyLower b

/-- Model of `Movie.objects.filter(genres=genre)`: the movies holding a bridge
row to the genre, in table order. -/
def moviesWithGenre (s : Store) (g : Genre) : List Movie :=
  s.movies.filter (fun m => s.links.contains (m.tmdb_id, g.tmdb_id))

/-- Descending-popularity order on movies (`order_by('-popularity')`). -/
def popDesc (a b : Movie) : Prop :=
  b.popularity ≤ a.popularity

instance : DecidableRel popDesc :=
  fun a b => inferInstanceAs (Decidable (b.popularity ≤ a.popularity))

instance : IsTotal Movie popDesc :=
  ⟨fun a b => le_total b.popularity a.popularity⟩

instance : IsTrans Movie popDesc :=
  ⟨fun _ _ _ h₁ h₂ => le_trans h₂ h₁⟩

/-- Model of `.order_by('-popularity')`: a sort of the filtered rows by
descending popularity. -/
def sortByPopularityDesc (ms : List Movie) : List Movie :=
  List.insertionSort popDesc ms

/-- Model of `TMDbService.get_movies_by_genre`: look the genre up by
case-insensitive name (`DoesNotExist` → `([], 0)`; several matching rows
make `.get` raise, modelled as `none`), order its movies by descending
popularity, slice `[start:start+20]`, and report `(count + 19) // 20` total
pages.  A negative slice start (page ≤ 0) raises in the ORM, modelled as
`none`. -/
def get_movies_by_genre (s : Store) (genre_name : String) (page : Int) :
    Option (List Movie × Nat) :=
  match s.genres.filter (fun g => iexactMatch g.name genre_name) with
  | [] => some ([], 0)
  | [g] =>
    let movies := sortByPopularityDesc (moviesWithGenre s g)
    let start := (page - 1) * 20
    if start < 0 then none
    else
      let paginated := (movies.drop start.toNat).take 20
      let total_pages := (movies.length + 19) / 20
      some (paginated, total_pages)
  | _ => none

/-- The HTTP responses the `movies_by_genre` view can produce. -/
inductive ByGenreResponse
  | badRequest (error : String)
  | notFound (error : String)
  | ok (results : List Movie) (page : Int) (total_pages : Nat) (count : Nat)
deriving DecidableEq, Repr

/-- Model of the `movies_by_genre` view (`movies/views.py`): a blank genre
parameter is a 400; a result with no movies and zero total pages is mapped
to a 404; anything else is a 200 envelope. -/
def movies_by_genre_view (s : Store) (genre_param : String) (page : Int) :
    Option ByGenreResponse :=
  let genre_name := pyStrip genre_param
  if genre_name == "" then some (ByGenreResponse.badRequest "Genre parameter is required")
  else
    match get_movies_by_genre s genre_name page with
    | none => none
    | some (movies, total_pages) =>
      if movies.isEmpty && total_pages == 0 then
        some (ByGenreResponse.notFound ("Genre \"" ++ genre_name ++ "\" not found"))
      else some (ByGenreResponse.ok movies page total_pages movies.length)

/-! Concrete fixtures: small stores, remotes and records used to instantiate
the theorems below on closed inputs. -/

/-- An empty local store. -/
def storeEmpty : Store := { movies := [], genres := [], links := [] }

/-- An empty store with a cold cache. -/
def stEmpty : SvcState := { store := storeEmpty, cache := [] }

/-- A remote for which every call fails at the transport level. -/
def remoteNone : Remote :=
  { genreList := none
    trending := fun _ _ => none
    popular := fun _ => none
    search := fun _ _ => none }

/-- A remote serving only the genre catalog, with one genre (28, "Action"). -/
def remoteCatalog : Remote :=
  { remoteNone with genreList := some { genres := some [{ id := 28, name := "Action" }] } }

/-- A well-formed record for provider id 7 carrying genre-id list [28]. -/
def recA : RawRecord :=
  { id := some 7, title := some "Movie A", overview := some "about A"
    release_date := some "2020-01-02", vote_average := some 7, popularity := some 5
    poster_path := some "/a.jpg", backdrop_path := none, genres := none
    genre_ids := some [28] }

/-- The same provider id 7 with an empty genre-id list. -/
def recB : RawRecord := { recA with genre_ids := some [] }

/-- A malformed record: no `id` key, so `movie_data['id']` raises `KeyError`. -/
def recBad : RawRecord :=
  { id := none, title := some "broken", overview := none, release_date := none
    vote_average := none, popularity := none, poster_path := none
    backdrop_path := none, genres := none, genre_ids := none }

/-- A well-formed record for provider id 5 without genre information. -/
def recPlain : RawRecord :=
  { id := some 5, title := some "Plain", overview := none, release_date := none
    vote_average := some 6, popularity := some 2, poster_path := none
    backdrop_path := none, genres := none, genre_ids := none }

/-- A record whose `vote_average` (11) lies outside the documented [0, 10]. -/
def recOverrated : RawRecord :=
  { id := some 1, title := some "Overrated", overview := none, release_date := none
    vote_average := some 11, popularity := none, poster_path := none
    backdrop_path := none, genres := none, genre_ids := none }

/-- A three-record batch in which exactly the middle record is malformed. -/
def payloadBatch : ListPayload :=
  { results := some [recA, recBad, recPlain], total_pages := some 4 }

/-- A remote serving `payloadBatch` on every list endpoint plus the catalog. -/
def remoteBatch : Remote :=
  { genreList := some { genres := some [{ id := 28, name := "Action" }] }
    trending := fun _ _ => some payloadBatch
    popular := fun _ => some payloadBatch
    search := fun _ _ => some payloadBatch }

/-- A store with one genre and two movies in it, with distinct popularity. -/
def storeAction2 : Store :=
  { movies := [
      { tmdb_id := 1, title := "m1", overview := "", release_date := none,
        vote_average := 5, popularity := 3, poster_path := "", backdrop_path := "" },
      { tmdb_id := 2, title := "m2", overview := "", release_date := none,
        vote_average := 5, popularity := 9, poster_path := "", backdrop_path := "" }]
    genres := [⟨28, "Action"⟩]
    links := [(1, 28), (2, 28)] }

/-- A store in which genre 28 "Action" exists but has no associated movie. -/
def storeActionEmpty : Store :=
  { movies := [], genres := [⟨28, "Action"⟩], links := [] }

/-- A state whose store already holds genre id 1 under the name "Action". -/
def stGenreOld : SvcState :=
  { store := { movies := [], genres := [⟨1, "Action"⟩], links := [] }, cache := [] }

/-- A remote whose genre catalog renames genre id 1 to "Adventure". -/
def remoteRenamed : Remote :=
  { remoteNone with genreList := some { genres := some [{ id := 1, name := "Adventure" }] } }

/-- A payload carrying a `results` key and an explicit `total_pages` of 0. -/
def payloadZeroPages : ListPayload :=
  { results := some [], total_pages := some 0 }

/-- A remote whose popular endpoint returns `payloadZeroPages`. -/
def remoteZeroPages : Remote :=
  { remoteNone with popular := fun _ => some payloadZeroPages }

/-- A payload carrying a `results` key but no `total_pages` key. -/
def payloadNoTotal : ListPayload :=
  { results := some [recPlain], total_pages := none }

/-- A remote serving `payloadNoTotal` on every list endpoint. -/
def remoteNoTotal : Remote :=
  { genreList := none
    trending := fun _ _ => some payloadNoTotal
    popular := fun _ => some payloadNoTotal
    search := fun _ _ => some payloadNoTotal }

/-! Basic lemmas about the merge engine and the fetch phases. -/

theorem create_or_update_movie_of_id_none (remote : Remote) (r : RawRecord) (d : Bool)
    (st : SvcState) (h : r.id = none) :
    create_or_update_movie remote r d st = (none, st, []) := by
  simp [create_or_update_movie, h]

theorem create_or_update_movie_fst (remote : Remote) (r : RawRecord) (d : Bool)
    (st : SvcState) (p : Int) (h : r.id = some p) :
    (create_or_update_movie remote r d st).1 = some (movieOfRecord r p) := by
  simp only [create_or_update_movie, h]
  split <;> rfl

theorem create_or_update_movie_movies (remote : Remote) (r : RawRecord) (d : Bool)
    (st : SvcState) (p : Int) (h : r.id = some p) :
    (create_or_update_movie remote r d st).2.1.store.movies =
      upsertMovie st.store.movies (movieOfRecord r p) := by
  simp only [create_or_update_movie, h]
  split <;> rfl

theorem listFetchData_cold_fail (key : String) (req : ApiRequest) (ttl : Int) :
    listFetchData [] key none req ttl =
      (none, [], [Effect.cacheRead key, Effect.apiCall req]) := rfl

theorem listFetchData_cold_results (key : String) (pl : ListPayload) (req : ApiRequest)
    (ttl : Int) (h : pl.results.isSome = true) :
    listFetchData [] key (some pl) req ttl =
      (some pl, cacheSet [] key (CachePayload.listP pl) ttl,
        [Effect.cacheRead key, Effect.apiCall req, Effect.cacheWrite key]) := by
  simp [listFetchData, cacheGet, ListPayload.isTruthy, h]

/-- C6: a query that strips to the empty string makes the search operation
return an empty result with zero total pages, leave the state (store and
cache) untouched, and perform no effect at all: no cache read, no cache
write, no remote call. -/
theorem search_blank_short_circuits (remote : Remote) (query : String) (page : Int)
    (st : SvcState) (h : pyStrip query = "") :
    search_movies remote query page st = (([], 0), st, []) := by
  simp [search_movies, h]

/-- Witness for C6 at the whitespace-only query of the spec's scenario. -/
theorem search_blank_short_circuits_witness :
    pyStrip "  " = "" ∧ search_movies remoteNone "  " 1 stEmpty = (([], 0), stEmpty, []) :=
  ⟨by decide, search_blank_short_circuits remoteNone "  " 1 stEmpty (by decide)⟩

/-- C4: with a cold cache, a transport-level failure of the remote call makes
each list operation (trending, popular, search) return an empty movie
sequence with total-page-count zero; the model is total, so no exception
reaches the caller (the `Except RequestException` branch of `_make_request`
is the `none` payload itself). -/
theorem transport_failure_yields_empty (remote : Remote) (st : SvcState)
    (time_window : String) (page : Int) (q : String) (hc : st.cache = [])
    (ht : remote.trending time_window page = none)
    (hp : remote.popular page = none) (hs : remote.search q page = none) :
    (fetch_trending_movies remote time_window page st).1 = ([], 0) ∧
    (fetch_popular_movies remote page st).1 = ([], 0) ∧
    (search_movies remote q page st).1 = ([], 0) := by
  refine ⟨?_, ?_, ?_⟩
  · simp [fetch_trending_movies, listFetchData, cacheGet, hc, ht]
  · simp [fetch_popular_movies, listFetchData, cacheGet, hc, hp]
  · by_cases hq : pyStrip q = ""
    · simp [search_movies, hq]
    · simp [search_movies, beq_iff_eq, hq, listFetchData, cacheGet, hc, hs]

/-- Witness for C4 on a remote that fails every call. -/
theorem transport_failure_yields_empty_witness :
    stEmpty.cache = [] ∧
    ((fetch_trending_movies remoteNone "day" 1 stEmpty).1 = ([], 0) ∧
      (fetch_popular_movies remoteNone 1 stEmpty).1 = ([], 0) ∧
      (search_movies remoteNone "batman" 1 stEmpty).1 = ([], 0)) :=
  ⟨rfl, transport_failure_yields_empty remoteNone stEmpty "day" 1 "batman" rfl rfl rfl rfl⟩

/-- C8: the merge engine stores `vote_average` verbatim, so a record whose
`vote_average` is 11 produces a stored movie whose rating average lies
outside [0, 10] — `update_or_create` never runs the `MinValueValidator`/
`MaxValueValidator` declared on `Movie.vote_average` in `movies/models.py`. -/
theorem merge_stores_out_of_range_rating :
    (create_or_update_movie remoteNone recOverrated false stEmpty).2.1.store.movies =
      [movieOfRecord recOverrated 1] ∧
    (movieOfRecord recOverrated 1).vote_average = 11 ∧
    ¬ (movieOfRecord recOverrated 1).vote_average ≤ 10 :=
  ⟨by decide, by decide, by decide⟩

/-- C1 counterexample: after merging provider id 7 with genre-id list [28]
(genre 28 exists locally) and then merging the same id with the empty
genre-id list, the movie is still associated with genre 28 — the empty list
does not clear the association set, contradicting the claim's "including
the case where B is empty". -/
theorem empty_genre_list_does_not_clear :
    genreIdList recB = [] ∧
    (create_or_update_movie remoteCatalog recB false
        (create_or_update_movie remoteCatalog recA false stEmpty).2.1).2.1.store.links =
      [(7, 28)] :=
  ⟨rfl, by decide⟩

/-- C7 counterexample: genre 28 "Action" exists locally with zero associated
movies, yet the by-genre view surfaces it as 404 not-found (because
`get_movies_by_genre` reports `([], 0)` for it, exactly as for an unknown
genre) — not as a valid empty success. -/
theorem empty_genre_surfaced_not_found :
    storeActionEmpty.genres = [⟨28, "Action"⟩] ∧
    movies_by_genre_view storeActionEmpty "Action" 1 =
      some (ByGenreResponse.notFound "Genre \"Action\" not found") :=
  ⟨rfl, by decide⟩

/-- C9 counterexample: genre id 1 exists locally as "Action"; a genre-catalog
fetch returning the name "Adventure" for id 1 leaves the stored name
"Action" — `get_or_create` ignores its `defaults` for an existing row, so no
name correction happens. -/
theorem genre_name_not_corrected :
    remoteRenamed.genreList = some { genres := some [{ id := 1, name := "Adventure" }] } ∧
    (fetch_genres remoteRenamed stGenreOld).2.1.store.genres = [⟨1, "Action"⟩] :=
  ⟨rfl, by decide⟩

/-- C10 counterexample: a payload that carries a `results` key together with
an explicit `total_pages` of 0 makes the popular operation report zero total
pages, so a response carrying a results list can yield zero total pages. -/
theorem results_with_zero_total_pages :
    payloadZeroPages.results.isSome = true ∧
    (fetch_popular_movies remoteZeroPages 1 stEmpty).1 = ([], 0) :=
  ⟨rfl, by decide⟩

theorem mem_addGenreLinks (gids : List Int) (L : List (Int × Int)) (t : Int)
    (G : List Genre) (a b : Int) :
    ((a, b) ∈ addGenreLinks L t gids G) ↔
      ((a, b) ∈ L ∨ (a = t ∧ b ∈ gids ∧ G.any (fun g => g.tmdb_id == b) = true)) := by
  induction gids generalizing L with
  | nil => simp [addGenreLinks]
  | cons gid rest ih =>
    simp only [addGenreLinks]
    rw [ih]
    by_cases hg : G.any (fun g => g.tmdb_id == gid) = true
    · rw [if_pos hg]
      by_cases hc : L.contains (t, gid) = true
      · rw [if_pos hc]
        have hmem : (t, gid) ∈ L := by simpa [List.contains] using hc
        constructor
        · rintro (h | ⟨ha, hb, hany⟩)
          · exact Or.inl h
          · exact Or.inr ⟨ha, List.mem_cons_of_mem _ hb, hany⟩
        · rintro (h | ⟨ha, hb, hany⟩)
          · exact Or.inl h
          · rcases List.mem_cons.mp hb with rfl | hb'
            · subst ha
              exact Or.inl hmem
            · exact Or.inr ⟨ha, hb', hany⟩
      · rw [if_neg hc]
        simp only [List.mem_append, List.mem_singleton, List.mem_cons]
        constructor
        · rintro ((h | h | h) | ⟨ha, hb, hany⟩)
          · exact Or.inl h
          · rw [Prod.mk.injEq] at h
            rcases h with ⟨rfl, rfl⟩
            exact Or.inr ⟨rfl, Or.inl rfl, hg⟩
          · exact absurd h (List.not_mem_nil _)
          · exact Or.inr ⟨ha, Or.inr hb, hany⟩
        · rintro (h | ⟨ha, rfl | hb, hany⟩)
          · exact Or.inl (Or.inl h)
          · subst ha
            exact Or.inl (Or.inr (Or.inl rfl))
          · exact Or.inr ⟨ha, hb, hany⟩
    · rw [if_neg hg]
      constructor
      · rintro (h | ⟨ha, hb, hany⟩)
        · exact Or.inl h
        · exact Or.inr ⟨ha, List.mem_cons_of_mem _ hb, hany⟩
      · rintro (h | ⟨ha, hb, hany⟩)
        · exact Or.inl h
        · rcases List.mem_cons.mp hb with rfl | hb'
          · exact absurd hany hg
          · exact Or.inr ⟨ha, hb', hany⟩

/-- C1 (amended): after a merge of a record with provider id `p`, if the
record's genre-id list is non-empty then `p` is associated with exactly the
listed genre ids that exist locally (in the post-merge genre table, i.e.
after the catalog-ensure step), whatever associations existed before; but if
the record's genre-id list is empty, the association table is left entirely
unchanged — the empty list does not clear previous associations. -/
theorem merge_genre_replacement (remote : Remote) (st : SvcState) (r : RawRecord)
    (p gid : Int) (h : r.id = some p) :
    (genreIdList r ≠ [] →
      (((p, gid) ∈ (create_or_update_movie remote r false st).2.1.store.links) ↔
        (gid ∈ genreIdList r ∧
          (create_or_update_movie remote r false st).2.1.store.genres.any
            (fun g => g.tmdb_id == gid) = true)))
    ∧ (genreIdList r = [] →
        (create_or_update_movie remote r false st).2.1.store.links = st.store.links) := by
  constructor
  · intro hne
    have hiso : (genreIdList r).isEmpty = false := by
      simp [List.isEmpty_eq_false, hne]
    simp only [create_or_update_movie, h, hiso, Bool.false_eq_true, if_false]
    rw [mem_addGenreLinks]
    simp [List.mem_filter]
  · intro h0
    have hiso : (genreIdList r).isEmpty = true := by
      simp [List.isEmpty_iff, h0]
    simp only [create_or_update_movie, h, hiso, if_true]

/-- Witness for C1 (amended), merging a record with genre-id list [28] into an
empty store with the catalog available. -/
theorem merge_genre_replacement_witness :
    recA.id = some 7 ∧ genreIdList recA ≠ [] ∧
    (((7 : Int), (28 : Int)) ∈
        (create_or_update_movie remoteCatalog recA false stEmpty).2.1.store.links ↔
      ((28 : Int) ∈ genreIdList recA ∧
        (create_or_update_movie remoteCatalog recA false stEmpty).2.1.store.genres.any
          (fun g => g.tmdb_id == 28) = true)) :=
  ⟨rfl, by decide, (merge_genre_replacement remoteCatalog stEmpty recA 7 28 rfl).1 (by decide)⟩

theorem upsertMovie_map_id_of_update (L : List Movie) (m : Movie) :
    (L.map (fun x => if x.tmdb_id == m.tmdb_id then m else x)).map Movie.tmdb_id =
      L.map Movie.tmdb_id := by
  rw [List.map_map]
  apply List.map_congr_left
  intro x hx
  by_cases hxm : (x.tmdb_id == m.tmdb_id) = true
  · simp only [Function.comp_apply, hxm, if_true]
    exact (beq_iff_eq.mp hxm).symm
  · rw [Bool.not_eq_true] at hxm
    have hne : x.tmdb_id ≠ m.tmdb_id := by simpa using hxm
    simp [hne]

theorem upsertMovie_nodup (L : List Movie) (m : Movie)
    (h : (L.map Movie.tmdb_id).Nodup) :
    ((upsertMovie L m).map Movie.tmdb_id).Nodup := by
  unfold upsertMovie
  by_cases ha : L.any (fun x => x.tmdb_id == m.tmdb_id) = true
  · rw [if_pos ha, upsertMovie_map_id_of_update L m]
    exact h
  · rw [if_neg ha, List.map_append, List.map_cons, List.map_nil, List.nodup_append]
    refine ⟨h, List.nodup_singleton _, ?_⟩
    intro a haid hamem
    rcases List.mem_map.mp haid with ⟨x, hxL, rfl⟩
    rcases List.mem_singleton.mp hamem with heq
    have ha' := List.any_eq_false.mp (Bool.not_eq_true _ ▸ ha) x hxL
    exact ha' (beq_iff_eq.mpr heq)

theorem filter_map_subst_no_match (L : List Movie) (m : Movie)
    (h : ∀ x ∈ L, x.tmdb_id ≠ m.tmdb_id) :
    (L.map (fun x => if x.tmdb_id == m.tmdb_id then m else x)).filter
      (fun x => x.tmdb_id == m.tmdb_id) = [] := by
  have hmap : L.map (fun x => if x.tmdb_id == m.tmdb_id then m else x) = L := by
    have hcong : ∀ x ∈ L, (if x.tmdb_id == m.tmdb_id then m else x) = id x := by
      intro x hx
      simp [beq_iff_eq, h x hx]
    rw [List.map_congr_left hcong, List.map_id]
  rw [hmap, List.filter_eq_nil_iff]
  intro x hx
  simp [beq_iff_eq, h x hx]

theorem filter_map_subst (L : List Movie) (m : Movie)
    (hnd : (L.map Movie.tmdb_id).Nodup)
    (ha : L.any (fun x => x.tmdb_id == m.tmdb_id) = true) :
    (L.map (fun x => if x.tmdb_id == m.tmdb_id then m else x)).filter
      (fun x => x.tmdb_id == m.tmdb_id) = [m] := by
  induction L with
  | nil => simp at ha
  | cons x rest ih =>
    have hpair : (∀ y ∈ rest, ¬ y.tmdb_id = x.tmdb_id) ∧ (rest.map Movie.tmdb_id).Nodup := by
      simpa using hnd
    by_cases hx : (x.tmdb_id == m.tmdb_id) = true
    · have hxeq : x.tmdb_id = m.tmdb_id := beq_iff_eq.mp hx
      have hrest : ∀ y ∈ rest, y.tmdb_id ≠ m.tmdb_id := by
        intro y hy heq
        exact hpair.1 y hy (by rw [heq, hxeq])
      rw [List.map_cons, if_pos hx]
      simp only [List.filter_cons, beq_self_eq_true, if_true]
      rw [filter_map_subst_no_match rest m hrest]
    · have ha' : rest.any (fun y => y.tmdb_id == m.tmdb_id) = true := by
        have ha2 : x.tmdb_id = m.tmdb_id ∨ ∃ y ∈ rest, y.tmdb_id = m.tmdb_id := by
          simpa using ha
        rcases ha2 with h1 | ⟨y, hy, hyeq⟩
        · exact absurd (beq_iff_eq.mpr h1) hx
        · exact List.any_eq_true.mpr ⟨y, hy, beq_iff_eq.mpr hyeq⟩
      rw [Bool.not_eq_true] at hx
      rw [List.map_cons, if_neg (by simp [hx])]
      simp only [List.filter_cons, hx, Bool.false_eq_true, if_false]
      exact ih hpair.2 ha'

theorem filter_upsertMovie (L : List Movie) (m : Movie)
    (hnd : (L.map Movie.tmdb_id).Nodup) :
    (upsertMovie L m).filter (fun x => x.tmdb_id == m.tmdb_id) = [m] := by
  unfold upsertMovie
  by_cases ha : L.any (fun x => x.tmdb_id == m.tmdb_id) = true
  · rw [if_pos ha]
    exact filter_map_subst L m hnd ha
  · rw [if_neg ha, List.filter_append]
    have h1 : L.filter (fun x => x.tmdb_id == m.tmdb_id) = [] := by
      rw [List.filter_eq_nil_iff]
      intro x hx
      exact fun hbeq => (List.any_eq_false.mp (Bool.not_eq_true _ ▸ ha) x hx) hbeq
    rw [h1]
    simp

/-- C2: merging the same well-formed record twice is idempotent — given a
store whose movie table has no duplicate provider ids, the store ends with
exactly one `Movie` row for the record's provider id, all of whose mutable
fields are exactly those computed from the record (the values written by the
second merge), and the second merge returns that row. -/
theorem merge_idempotent (remote : Remote) (st : SvcState) (r : RawRecord)
    (d : Bool) (p : Int) (hnd : (st.store.movies.map Movie.tmdb_id).Nodup)
    (h : r.id = some p) :
    ((create_or_update_movie remote r d
        (create_or_update_movie remote r d st).2.1).2.1.store.movies.filter
      (fun m => m.tmdb_id == p) = [movieOfRecord r p]) ∧
    (create_or_update_movie remote r d
        (create_or_update_movie remote r d st).2.1).1 = some (movieOfRecord r p) := by
  have h1 := create_or_update_movie_movies remote r d st p h
  have h2 := create_or_update_movie_movies remote r d
    (create_or_update_movie remote r d st).2.1 p h
  constructor
  · rw [h2, h1]
    have hnd1 : ((upsertMovie st.store.movies (movieOfRecord r p)).map Movie.tmdb_id).Nodup :=
      upsertMovie_nodup _ _ hnd
    exact filter_upsertMovie (upsertMovie st.store.movies (movieOfRecord r p))
      (movieOfRecord r p) hnd1
  · exact create_or_update_movie_fst remote r d _ p h

/-- Witness for C2, merging one record twice into an empty store. -/
theorem merge_idempotent_witness :
    (stEmpty.store.movies.map Movie.tmdb_id).Nodup ∧ recPlain.id = some 5 ∧
    ((create_or_update_movie remoteNone recPlain false
        (create_or_update_movie remoteNone recPlain false stEmpty).2.1).2.1.store.movies.filter
      (fun m => m.tmdb_id == 5) = [movieOfRecord recPlain 5] ∧
    (create_or_update_movie remoteNone recPlain false
        (create_or_update_movie remoteNone recPlain false stEmpty).2.1).1 =
      some (movieOfRecord recPlain 5)) :=
  ⟨by decide, rfl, merge_idempotent remoteNone stEmpty recPlain false 5 (by decide) rfl⟩

theorem mergeRecords_fst (remote : Remote) (l : List RawRecord) (st : SvcState) :
    (mergeRecords remote l st).1 =
      l.filterMap (fun r => r.id.map (fun tid => movieOfRecord r tid)) := by
  induction l generalizing st with
  | nil => simp [mergeRecords]
  | cons r rest ih =>
    simp only [mergeRecords]
    rcases hid : r.id with _ | p
    · rw [create_or_update_movie_of_id_none remote r false st hid]
      simp [List.filterMap_cons, hid, ih]
    · rw [create_or_update_movie_fst remote r false st p hid]
      simp [List.filterMap_cons, hid, ih]

theorem length_filterMap_movies (l : List RawRecord) :
    (l.filterMap (fun r => r.id.map (fun tid => movieOfRecord r tid))).length =
      l.countP (fun r => r.id.isSome) := by
  induction l with
  | nil => rfl
  | cons r rest ih =>
    rcases hid : r.id with _ | p <;>
      simp [List.filterMap_cons, List.countP_cons, hid, ih]

theorem countP_id_split (l : List RawRecord) :
    l.countP (fun r => r.id.isSome) + l.countP (fun r => r.id.isNone) = l.length := by
  induction l with
  | nil => rfl
  | cons r rest ih =>
    rcases hid : r.id with _ | p <;> simp [List.countP_cons, hid] <;> omega

theorem fetch_trending_cold (remote : Remote) (tw : String) (page : Int)
    (st : SvcState) (pl : ListPayload) (rs : List RawRecord) (hc : st.cache = [])
    (h : remote.trending tw page = some pl) (hr : pl.results = some rs) :
    ∃ stm, (fetch_trending_movies remote tw page st).1 =
      ((mergeRecords remote rs stm).1, pl.total_pages.getD 1) := by
  have hs : pl.results.isSome = true := by rw [hr]; rfl
  refine ⟨{ store := st.store,
            cache := cacheSet [] ("trending_movies_" ++ tw ++ "_" ++ toString page)
              (CachePayload.listP pl) CACHE_TIMEOUT_TRENDING }, ?_⟩
  simp only [fetch_trending_movies, hc, h, listFetchData_cold_results _ _ _ _ hs, hr]

theorem fetch_popular_cold (remote : Remote) (page : Int) (st : SvcState)
    (pl : ListPayload) (rs : List RawRecord) (hc : st.cache = [])
    (h : remote.popular page = some pl) (hr : pl.results = some rs) :
    ∃ stm, (fetch_popular_movies remote page st).1 =
      ((mergeRecords remote rs stm).1, pl.total_pages.getD 1) := by
  have hs : pl.results.isSome = true := by rw [hr]; rfl
  refine ⟨{ store := st.store,
            cache := cacheSet [] ("popular_movies_" ++ toString page)
              (CachePayload.listP pl) CACHE_TIMEOUT_POPULAR }, ?_⟩
  simp only [fetch_popular_movies, hc, h, listFetchData_cold_results _ _ _ _ hs, hr]

theorem search_movies_cold (remote : Remote) (q : String) (page : Int)
    (st : SvcState) (pl : ListPayload) (rs : List RawRecord) (hc : st.cache = [])
    (hq : pyStrip q ≠ "") (h : remote.search q page = some pl)
    (hr : pl.results = some rs) :
    ∃ stm, (search_movies remote q page st).1 =
      ((mergeRecords remote rs stm).1, pl.total_pages.getD 1) := by
  have hs : pl.results.isSome = true := by rw [hr]; rfl
  refine ⟨{ store := st.store,
            cache := cacheSet [] ("search_movies_" ++ q ++ "_" ++ toString page)
              (CachePayload.listP pl) 1800 }, ?_⟩
  simp only [search_movies, beq_iff_eq, hq, if_false, hc, h,
    listFetchData_cold_results _ _ _ _ hs, hr]

/-- C3: with a cold cache, when each list operation's payload carries a batch
of records of which exactly one is malformed (raises on its missing `id`
key), the operation returns exactly the successfully merged movies of the
other records — one per well-formed record, in order — so N records yield
N - 1 movies; the loop never aborts and the model is total, so no exception
escapes. -/
theorem batch_failure_isolation (remote : Remote) (st : SvcState) (tw : String)
    (page : Int) (q : String) (l : List RawRecord) (tp₁ tp₂ tp₃ : Option Int)
    (hc : st.cache = [])
    (ht : remote.trending tw page = some { results := some l, total_pages := tp₁ })
    (hp : remote.popular page = some { results := some l, total_pages := tp₂ })
    (hs : remote.search q page = some { results := some l, total_pages := tp₃ })
    (hq : pyStrip q ≠ "") (hone : l.countP (fun r => r.id.isNone) = 1) :
    ((fetch_trending_movies remote tw page st).1.1 =
        l.filterMap (fun r => r.id.map (fun tid => movieOfRecord r tid)) ∧
      (fetch_trending_movies remote tw page st).1.1.length = l.length - 1) ∧
    ((fetch_popular_movies remote page st).1.1 =
        l.filterMap (fun r => r.id.map (fun tid => movieOfRecord r tid)) ∧
      (fetch_popular_movies remote page st).1.1.length = l.length - 1) ∧
    ((search_movies remote q page st).1.1 =
        l.filterMap (fun r => r.id.map (fun tid => movieOfRecord r tid)) ∧
      (search_movies remote q page st).1.1.length = l.length - 1) := by
  have hlen : (l.filterMap (fun r => r.id.map (fun tid => movieOfRecord r tid))).length =
      l.length - 1 := by
    have h1 := length_filterMap_movies l
    have h2 := countP_id_split l
    omega
  obtain ⟨stm₁, he₁⟩ := fetch_trending_cold remote tw page st _ l hc ht rfl
  obtain ⟨stm₂, he₂⟩ := fetch_popular_cold remote page st _ l hc hp rfl
  obtain ⟨stm₃, he₃⟩ := search_movies_cold remote q page st _ l hc hq hs rfl
  have hv₁ : (fetch_trending_movies remote tw page st).1.1 =
      l.filterMap (fun r => r.id.map (fun tid => movieOfRecord r tid)) := by
    rw [he₁]
    exact mergeRecords_fst remote l stm₁
  have hv₂ : (fetch_popular_movies remote page st).1.1 =
      l.filterMap (fun r => r.id.map (fun tid => movieOfRecord r tid)) := by
    rw [he₂]
    exact mergeRecords_fst remote l stm₂
  have hv₃ : (search_movies remote q page st).1.1 =
      l.filterMap (fun r => r.id.map (fun tid => movieOfRecord r tid)) := by
    rw [he₃]
    exact mergeRecords_fst remote l stm₃
  exact ⟨⟨hv₁, hv₁ ▸ hlen⟩, ⟨hv₂, hv₂ ▸ hlen⟩, ⟨hv₃, hv₃ ▸ hlen⟩⟩

/-- Witness for C3 on a three-record batch whose middle record lacks `id`. -/
theorem batch_failure_isolation_witness :
    stEmpty.cache = [] ∧
    [recA, recBad, recPlain].countP (fun r => r.id.isNone) = 1 ∧
    (((fetch_trending_movies remoteBatch "day" 1 stEmpty).1.1 =
        [recA, recBad, recPlain].filterMap
          (fun r => r.id.map (fun tid => movieOfRecord r tid)) ∧
      (fetch_trending_movies remoteBatch "day" 1 stEmpty).1.1.length =
        [recA, recBad, recPlain].length - 1) ∧
    ((fetch_popular_movies remoteBatch 1 stEmpty).1.1 =
        [recA, recBad, recPlain].filterMap
          (fun r => r.id.map (fun tid => movieOfRecord r tid)) ∧
      (fetch_popular_movies remoteBatch 1 stEmpty).1.1.length =
        [recA, recBad, recPlain].length - 1) ∧
    ((search_movies remoteBatch "batman" 1 stEmpty).1.1 =
        [recA, recBad, recPlain].filterMap
          (fun r => r.id.map (fun tid => movieOfRecord r tid)) ∧
      (search_movies remoteBatch "batman" 1 stEmpty).1.1.length =
        [recA, recBad, recPlain].length - 1)) :=
  ⟨rfl, by decide,
    batch_failure_isolation remoteBatch stEmpty "day" 1 "batman"
      [recA, recBad, recPlain] (some 4) (some 4) (some 4) rfl rfl rfl rfl
      (by decide) (by decide)⟩

/-- C10 (amended): for each list operation with a cold cache and a payload
carrying a `results` key, the reported total-page-count is the payload's
`total_pages` value, defaulting to 1 when the key is absent; consequently a
results-bearing payload yields zero total pages exactly when it itself
carries `total_pages = 0`, and otherwise zero total pages arises only from
transport failure, a payload without `results`, or an empty search query. -/
theorem total_pages_default (remote : Remote) (st : SvcState) (tw : String)
    (page : Int) (q : String) (pl₁ pl₂ pl₃ : ListPayload)
    (l₁ l₂ l₃ : List RawRecord) (hc : st.cache = []) (hq : pyStrip q ≠ "")
    (ht : remote.trending tw page = some pl₁) (hr₁ : pl₁.results = some l₁)
    (hp : remote.popular page = some pl₂) (hr₂ : pl₂.results = some l₂)
    (hs : remote.search q page = some pl₃) (hr₃ : pl₃.results = some l₃) :
    ((fetch_trending_movies remote tw page st).1.2 = pl₁.total_pages.getD 1 ∧
      ((fetch_trending_movies remote tw page st).1.2 = 0 ↔ pl₁.total_pages = some 0)) ∧
    ((fetch_popular_movies remote page st).1.2 = pl₂.total_pages.getD 1 ∧
      ((fetch_popular_movies remote page st).1.2 = 0 ↔ pl₂.total_pages = some 0)) ∧
    ((search_movies remote q page st).1.2 = pl₃.total_pages.getD 1 ∧
      ((search_movies remote q page st).1.2 = 0 ↔ pl₃.total_pages = some 0)) := by
  obtain ⟨stm₁, he₁⟩ := fetch_trending_cold remote tw page st pl₁ l₁ hc ht hr₁
  obtain ⟨stm₂, he₂⟩ := fetch_popular_cold remote page st pl₂ l₂ hc hp hr₂
  obtain ⟨stm₃, he₃⟩ := search_movies_cold remote q page st pl₃ l₃ hc hq hs hr₃
  refine ⟨⟨by rw [he₁], ?_⟩, ⟨by rw [he₂], ?_⟩, ⟨by rw [he₃], ?_⟩⟩
  · rw [he₁]
    rcases pl₁.total_pages with _ | t <;> simp
  · rw [he₂]
    rcases pl₂.total_pages with _ | t <;> simp
  · rw [he₃]
    rcases pl₃.total_pages with _ | t <;> simp

/-- Witness for C10 (amended) on payloads carrying `results` but no
`total_pages`: every operation reports total-page-count 1. -/
theorem total_pages_default_witness :
    stEmpty.cache = [] ∧ payloadNoTotal.results = some [recPlain] ∧
    (((fetch_trending_movies remoteNoTotal "day" 1 stEmpty).1.2 =
        payloadNoTotal.total_pages.getD 1 ∧
      ((fetch_trending_movies remoteNoTotal "day" 1 stEmpty).1.2 = 0 ↔
        payloadNoTotal.total_pages = some 0)) ∧
    ((fetch_popular_movies remoteNoTotal 1 stEmpty).1.2 =
        payloadNoTotal.total_pages.getD 1 ∧
      ((fetch_popular_movies remoteNoTotal 1 stEmpty).1.2 = 0 ↔
        payloadNoTotal.total_pages = some 0)) ∧
    ((search_movies remoteNoTotal "batman" 1 stEmpty).1.2 =
        payloadNoTotal.total_pages.getD 1 ∧
      ((search_movies remoteNoTotal "batman" 1 stEmpty).1.2 = 0 ↔
        payloadNoTotal.total_pages = some 0))) :=
  ⟨rfl, rfl,
    total_pages_default remoteNoTotal stEmpty "day" 1 "batman"
      payloadNoTotal payloadNoTotal payloadNoTotal [recPlain] [recPlain] [recPlain]
      rfl (by decide) rfl rfl rfl rfl rfl rfl⟩

theorem upsertGenres_shape (gl : List GenrePair) (acc : List Genre) :
    ∃ new, upsertGenres acc gl = acc ++ new ∧
      ∀ g ∈ new, ∀ g₀ ∈ acc, g₀.tmdb_id ≠ g.tmdb_id := by
  induction gl generalizing acc with
  | nil => exact ⟨[], by simp [upsertGenres], by simp⟩
  | cons gp rest ih =>
    simp only [upsertGenres, getOrCreateGenre]
    by_cases ha : acc.any (fun g => g.tmdb_id == gp.id) = true
    · rw [if_pos ha]
      exact ih acc
    · rw [if_neg ha]
      obtain ⟨new', h1, h2⟩ := ih (acc ++ [⟨gp.id, gp.name⟩])
      refine ⟨⟨gp.id, gp.name⟩ :: new', ?_, ?_⟩
      · rw [h1, List.append_assoc]
        rfl
      · intro g hg g₀ h₀
        rcases List.mem_cons.mp hg with rfl | hg'
        · have := List.any_eq_false.mp (Bool.not_eq_true _ ▸ ha) g₀ h₀
          simpa using this
        · exact h2 g hg' g₀ (List.mem_append_left _ h₀)

/-- C9 (amended): a genre-catalog fetch never modifies an existing genre row —
in particular it never corrects a name.  The post-fetch genre table is the
old table, unchanged, followed only by newly created genres whose provider
ids were not present before (`get_or_create` ignores its `defaults`,
including the fetched name, whenever the provider id already exists). -/
theorem fetch_genres_never_renames (remote : Remote) (st : SvcState) :
    ∃ new, (fetch_genres remote st).2.1.store.genres = st.store.genres ++ new ∧
      ∀ g ∈ new, ∀ g₀ ∈ st.store.genres, g₀.tmdb_id ≠ g.tmdb_id := by
  simp only [fetch_genres]
  rcases hfd : (genresFetchData remote st.cache).1 with _ | p
  · exact ⟨[], by simp, by simp⟩
  · rcases hpg : p.genres with _ | gl
    · exact ⟨[], by simp [hpg], by simp⟩
    · simpa [hpg] using upsertGenres_shape gl st.store.genres

/-- C5: for a genre name with exactly one local (case-insensitive) match and a
page number at least 1, the by-genre operation succeeds and returns the
slice `[20*(page-1), 20*page)` of the genre's locally stored movies sorted
by descending popularity, reporting as total pages the ceiling division of
the movie count by the fixed page size 20 (45 movies → 3 pages). -/
theorem by_genre_pagination (s : Store) (name : String) (page : Int) (g : Genre)
    (hg : s.genres.filter (fun x => iexactMatch x.name name) = [g]) (hp : 1 ≤ page) :
    ∃ allSorted : List Movie,
      get_movies_by_genre s name page =
        some ((allSorted.drop ((page - 1) * 20).toNat).take 20,
          (moviesWithGenre s g).length ⌈/⌉ 20) ∧
      allSorted.Perm (moviesWithGenre s g) ∧
      allSorted.Sorted popDesc ∧
      ((moviesWithGenre s g).length = 45 → (moviesWithGenre s g).length ⌈/⌉ 20 = 3) := by
  refine ⟨sortByPopularityDesc (moviesWithGenre s g), ?_, ?_, ?_, ?_⟩
  · simp only [get_movies_by_genre, hg]
    rw [if_neg (by omega : ¬ ((page - 1) * 20 < 0))]
    have hlen : (sortByPopularityDesc (moviesWithGenre s g)).length =
        (moviesWithGenre s g).length := by
      rw [sortByPopularityDesc, List.length_insertionSort]
    have h19 : (moviesWithGenre s g).length + 20 - 1 = (moviesWithGenre s g).length + 19 := by
      omega
    have hceil : ((sortByPopularityDesc (moviesWithGenre s g)).length + 19) / 20 =
        (moviesWithGenre s g).length ⌈/⌉ 20 := by
      rw [Nat.ceilDiv_eq_add_pred_div, hlen, h19]
    rw [hceil]
  · exact List.perm_insertionSort popDesc _
  · exact List.sorted_insertionSort popDesc _
  · intro h45
    rw [Nat.ceilDiv_eq_add_pred_div, h45]

/-- Witness for C5 on a store holding two movies of genre 28 "Action",
queried with different casing. -/
theorem by_genre_pagination_witness :
    storeAction2.genres.filter (fun x => iexactMatch x.name "ACTION") =
      [(⟨28, "Action"⟩ : Genre)] ∧ (1 : Int) ≤ 1 ∧
    (∃ allSorted : List Movie,
      get_movies_by_genre storeAction2 "ACTION" 1 =
        some ((allSorted.drop (((1 : Int) - 1) * 20).toNat).take 20,
          (moviesWithGenre storeAction2 ⟨28, "Action"⟩).length ⌈/⌉ 20) ∧
      allSorted.Perm (moviesWithGenre storeAction2 ⟨28, "Action"⟩) ∧
      allSorted.Sorted popDesc ∧
      ((moviesWithGenre storeAction2 ⟨28, "Action"⟩).length = 45 →
        (moviesWithGenre storeAction2 ⟨28, "Action"⟩).length ⌈/⌉ 20 = 3)) :=
  ⟨by decide, by decide,
    by_genre_pagination storeAction2 "ACTION" 1 ⟨28, "Action"⟩ (by decide) (by decide)⟩

/-- C7 (amended): the by-genre path does not distinguish an unknown genre from
an existing genre with no movies: for a non-blank genre parameter and page
at least 1, both cases make `get_movies_by_genre` report `([], 0)` and the
view maps both to the same 404 not-found response — the check is on
empty-results-and-zero-total-pages alone, with no separate genre-existence
step. -/
theorem by_genre_not_found_ambiguity (s : Store) (name : String) (page : Int)
    (hp : 1 ≤ page) (hname : pyStrip name ≠ "") :
    (s.genres.filter (fun g => iexactMatch g.name (pyStrip name)) = [] →
      movies_by_genre_view s name page =
        some (ByGenreResponse.notFound ("Genre \"" ++ pyStrip name ++ "\" not found"))) ∧
    (∀ g, s.genres.filter (fun g₀ => iexactMatch g₀.name (pyStrip name)) = [g] →
      moviesWithGenre s g = [] →
      movies_by_genre_view s name page =
        some (ByGenreResponse.notFound ("Genre \"" ++ pyStrip name ++ "\" not found"))) := by
  constructor
  · intro hf
    simp only [movies_by_genre_view, beq_iff_eq, hname, if_false]
    simp only [get_movies_by_genre, hf]
    rfl
  · intro g hf hempty
    simp only [movies_by_genre_view, beq_iff_eq, hname, if_false]
    simp only [get_movies_by_genre, hf, hempty]
    rw [if_neg (by omega : ¬ ((page - 1) * 20 < 0))]
    simp [sortByPopularityDesc, List.insertionSort]

/-- Witness for C7 (amended) on a store whose only genre has no movies. -/
theorem by_genre_not_found_ambiguity_witness :
    (1 : Int) ≤ 1 ∧ pyStrip "Action" ≠ "" ∧
    storeActionEmpty.genres.filter
      (fun g₀ => iexactMatch g₀.name (pyStrip "Action")) = [(⟨28, "Action"⟩ : Genre)] ∧
    moviesWithGenre storeActionEmpty ⟨28, "Action"⟩ = [] ∧
    movies_by_genre_view storeActionEmpty "Action" 1 =
      some (ByGenreResponse.notFound ("Genre \"" ++ pyStrip "Action" ++ "\" not found")) :=
  ⟨by decide, by decide, by decide, by decide,
    (by_genre_not_found_ambiguity storeActionEmpty "Action" 1 (by decide) (by decide)).2
      ⟨28, "Action"⟩ (by decide) (by decide)⟩

end MovieBackend
